import Mathlib

/-!
Shallow embedding of the Iftach SIP call client (src/main.go and the variant in
src/unnamed/part_000), together with theorems settling the frozen claims about
the call-lifecycle state machine, the message builders, the address resolver
and the HTTP front door.

Time is modelled abstractly: one time-unit stands for one second, and `Nat`
timestamps replace `time.Time`.  The Go `select` loops of `run` become a step
function over an explicit state, driven by a trace of timed events.
-/

namespace Iftach

/-! ## Configuration (struct Config, src/main.go lines 23-31) -/

structure Config where
  sipUser : String
  sipPass : String
  sipDomain : String
  destination : String
  outgoingNumber : String
  callToken : String
  listenAddress : String
deriving DecidableEq, Repr

/-! ## Status constants (src/main.go lines 35-41) -/

def statusSendingInvite : String := "sending_invite"

def statusAuthenticating : String := "authenticating"

def statusTrying : String := "trying"

def statusHangingUpTimer : String := "hanging_up_timer"

def statusError : String := "error"

/-! ## SIP requests

`sip.NewRequest(method, uri)` creates a request carrying only the method and
the recipient URI; all dialog headers are absent until explicitly appended (the
transport fills missing ones in only when the request is handed to
`TransactionRequest`, which is why the original INVITE has them populated by
the time the builders below read them).  Headers are modelled as `Option`
fields: `none` means the header is absent on the freshly built request. -/

inductive Method
  | invite
  | ack
  | bye
  | cancel
deriving DecidableEq, Repr

structure Uri where
  user : String
  host : String
deriving DecidableEq, Repr

structure SipRequest where
  method : Method
  uri : Uri
  fromH : Option String
  toH : Option String
  callID : Option String
  /-- CSeq header: sequence number and method name. -/
  cseq : Option (Nat × Method)
  viaH : Option String
  contactH : Option String
  pAssertedIdentity : Option String
deriving DecidableEq, Repr

/-- sip.NewRequest: a bare request with no headers set. -/
def newRequest (m : Method) (dest : Uri) : SipRequest :=
  { method := m, uri := dest, fromH := none, toH := none, callID := none,
    cseq := none, viaH := none, contactH := none, pAssertedIdentity := none }

/-- Sequence number of the CSeq header; reading it on a request without a CSeq
header would be a nil dereference in Go, modelled with default 0. -/
def reqSeqNo (req : SipRequest) : Nat :=
  match req.cseq with
  | some (n, _) => n
  | none => 0

/-- INVITE construction, src/main.go lines 286-303: From with a tag, To,
Contact from the discovered public IP, optional P-Asserted-Identity. -/
def buildInvite (cfg : Config) (publicIP : String) (tag : Nat) : SipRequest :=
  let destURI : Uri := { user := cfg.destination, host := cfg.sipDomain }
  { newRequest Method.invite destURI with
    fromH := some ("<sip:" ++ cfg.sipUser ++ "@" ++ cfg.sipDomain ++ ">;tag=" ++ toString tag),
    toH := some ("<sip:" ++ cfg.destination ++ "@" ++ cfg.sipDomain ++ ">"),
    contactH := some ("<sip:" ++ cfg.sipUser ++ "@" ++ publicIP ++ ">"),
    pAssertedIdentity := if cfg.outgoingNumber ≠ "" then some cfg.outgoingNumber else none }

/-- sendCANCEL, src/main.go lines 493-507: clone From, To, Call-ID and Via from
the original request; CSeq reuses the original sequence number with method
CANCEL. -/
def sendCANCEL (destURI : Uri) (req : SipRequest) : SipRequest :=
  { newRequest Method.cancel destURI with
    fromH := req.fromH, toH := req.toH, callID := req.callID,
    cseq := some (reqSeqNo req, Method.cancel), viaH := req.viaH }

/-- sendBYE, src/main.go lines 509-523: clone From, To, Call-ID and Via; CSeq
is the original sequence number plus one with method BYE. -/
def sendBYE (destURI : Uri) (req : SipRequest) : SipRequest :=
  { newRequest Method.bye destURI with
    fromH := req.fromH, toH := req.toH, callID := req.callID,
    cseq := some (reqSeqNo req + 1, Method.bye), viaH := req.viaH }

/-- CANCEL built inline by the unconditional cleanup goroutine, src/main.go
lines 312-324: same construction as sendCANCEL. -/
def cleanupCancelMsg (destURI : Uri) (req : SipRequest) : SipRequest :=
  { newRequest Method.cancel destURI with
    fromH := req.fromH, toH := req.toH, callID := req.callID,
    cseq := some (reqSeqNo req, Method.cancel), viaH := req.viaH }

/-- BYE built inline by the unconditional cleanup goroutine, src/main.go lines
326-335: clones From, To, Call-ID and sets CSeq seq+1 BYE, but unlike sendBYE
it never touches the Via header. -/
def cleanupByeMsg (destURI : Uri) (req : SipRequest) : SipRequest :=
  { newRequest Method.bye destURI with
    fromH := req.fromH, toH := req.toH, callID := req.callID,
    cseq := some (reqSeqNo req + 1, Method.bye) }

/-- handleCallEstablished, src/main.go lines 525-537: writes a bare ACK built
with sip.NewRequest (no dialog headers cloned), sleeps until the call deadline,
emits hanging_up_timer and sends a BYE.  Returned as the pair of emitted
status events and sent messages, in order. -/
def handleCallEstablished (destURI : Uri) (req : SipRequest) :
    List String × List SipRequest :=
  ([statusHangingUpTimer], [newRequest Method.ack destURI, sendBYE destURI req])

/-! ## The call-lifecycle state machine (run, src/main.go lines 242-472)

The `for` loop over the two `select` statements is modelled as a step function
on an explicit state.  The mutable locals of `run` that survive an iteration
are the state fields; the two `select`s are distinguished by
`callDeadline.IsZero()` exactly as in the source.  One time-unit is one
second. -/

def wait100Units : Nat := 2

def callDurationUnits : Nat := 12

def maxAuthAttempts : Nat := 3

/-- The mutable loop state of run: `terminated` records that the function
returned, `callDeadline` is `time.Time` with `none` for the zero value,
`deadline100` and `authChallengeCount` are the remaining locals. -/
structure SMState where
  terminated : Bool
  callDeadline : Option Nat
  deadline100 : Nat
  authChallengeCount : Nat
deriving DecidableEq, Repr

/-- State at entry to the loop, src/main.go lines 356-359, for a run whose
INVITE was sent at time `start`. -/
def initialState (start : Nat) : SMState :=
  { terminated := false, callDeadline := none,
    deadline100 := start + wait100Units, authChallengeCount := 0 }

/-- Derived phase, as in the spec the call state is recoverable from the
state fields: no deadline set means still awaiting the provisional response. -/
inductive Phase
  | awaitingProvisional
  | awaitingFinal
  | terminated
deriving DecidableEq, Repr

def SMState.phase (s : SMState) : Phase :=
  if s.terminated then Phase.terminated
  else
    match s.callDeadline with
    | some _ => Phase.awaitingFinal
    | none => Phase.awaitingProvisional

/-- One occurrence a `select` arm can win: a response with the given status
code arriving on tx.Responses (with `authOk` recording whether a digest-auth
rebuild would succeed for it, the behaviour of the external transport), the
armed timer firing, context cancellation, tx.Done, or the response channel
closing. -/
inductive Event
  | resp (code : Nat) (authOk : Bool)
  | timerFires
  | ctxCancelled
  | txDone
  | txClosed
deriving DecidableEq, Repr

/-- Result of handleResponseAfter100 plus the side effects it performs. -/
structure HandleResult where
  handled : Bool
  done : Bool
  events : List String
  msgs : List SipRequest
deriving DecidableEq, Repr

/-- handleResponseAfter100, src/main.go lines 475-491: 100 is absorbed, 200
establishes the call, any code at least 300 is a failure (emitting error),
anything else is unhandled. -/
def handleResponseAfter100 (destURI : Uri) (req : SipRequest) (code : Nat) :
    HandleResult :=
  if code = 100 then
    { handled := true, done := false, events := [], msgs := [] }
  else if code = 200 then
    let r := handleCallEstablished destURI req
    { handled := true, done := true, events := r.1, msgs := r.2 }
  else if 300 ≤ code then
    { handled := true, done := true, events := [statusError], msgs := [] }
  else
    { handled := false, done := false, events := [], msgs := [] }

/-- The shared 401/407 handling, src/main.go lines 389-408 and 436-456:
increment the counter, give up with error past maxAuthAttempts, otherwise
emit authenticating and resend with digest auth (on TransactionDigestAuth
failure emit error and return).  `resetD` is true on the pre-provisional
path, which re-arms the 2-unit deadline for the re-sent INVITE. -/
def authChallengeStep (s : SMState) (now : Nat) (authOk : Bool) (resetD : Bool) :
    SMState × List String × List SipRequest :=
  let c := s.authChallengeCount + 1
  if c > maxAuthAttempts then
    ({ s with authChallengeCount := c, terminated := true }, [statusError], [])
  else if authOk then
    let s1 := { s with authChallengeCount := c }
    (if resetD then { s1 with deadline100 := now + wait100Units } else s1,
     [statusAuthenticating], [])
  else
    ({ s with authChallengeCount := c, terminated := true },
     [statusAuthenticating, statusError], [])

/-- One iteration of the loop of run, src/main.go lines 361-471, on the event
that won the `select` at time `now`.  Returns the successor state, the status
events posted to the sink and the messages written to the transport, in
order. -/
def stepRun (destURI : Uri) (req : SipRequest) (s : SMState) (now : Nat)
    (e : Event) : SMState × List String × List SipRequest :=
  if s.terminated then (s, [], [])
  else
    match s.callDeadline with
    | some _ =>
      -- the 12-unit deadline is armed: lines 363-414
      match e with
      | Event.ctxCancelled => ({ s with terminated := true }, [], [])
      | Event.timerFires =>
          ({ s with terminated := true }, [statusHangingUpTimer],
           [sendBYE destURI req])
      | Event.txClosed => ({ s with terminated := true }, [], [])
      | Event.txDone => ({ s with terminated := true }, [], [])
      | Event.resp code authOk =>
          let h := handleResponseAfter100 destURI req code
          if h.done then ({ s with terminated := true }, h.events, h.msgs)
          else if h.handled then (s, h.events, h.msgs)
          else if code = 401 ∨ code = 407 then
            -- lines 389-408, translated as written (the handleResponseAfter100
            -- branch for codes at least 300 already caught 401 and 407)
            authChallengeStep s now authOk false
          else (s, h.events, h.msgs)
    | none =>
      -- phase 1, waiting for the 100 within 2 units: lines 417-470
      match e with
      | Event.ctxCancelled => ({ s with terminated := true }, [], [])
      | Event.timerFires =>
          ({ s with terminated := true }, [statusError],
           [sendCANCEL destURI req])
      | Event.txClosed => ({ s with terminated := true }, [], [])
      | Event.txDone => ({ s with terminated := true }, [], [])
      | Event.resp code authOk =>
          if code = 100 then
            ({ s with callDeadline := some (now + callDurationUnits) },
             [statusTrying], [])
          else if code = 401 ∨ code = 407 then
            authChallengeStep s now authOk true
          else if code = 200 then
            let r := handleCallEstablished destURI req
            ({ s with callDeadline := some (now + callDurationUnits), terminated := true },
             r.1, r.2)
          else if 300 ≤ code then
            ({ s with terminated := true }, [statusError], [])
          else (s, [], [])

/-- Folding stepRun over a trace of timed events, accumulating the emitted
status events and sent messages. -/
def runTrace (destURI : Uri) (req : SipRequest) :
    SMState → List (Nat × Event) → SMState × List String × List SipRequest
  | s, [] => (s, [], [])
  | s, (t, e) :: rest =>
      let r := stepRun destURI req s t e
      let rf := runTrace destURI req r.1 rest
      (rf.1, r.2.1 ++ rf.2.1, r.2.2 ++ rf.2.2)

/-- Messages of the safety-net goroutine, src/main.go lines 308-339: on the
cancellation signal it writes a CANCEL then a BYE built from the original
request. -/
def cleanupHookMsgs (destURI : Uri) (req : SipRequest) : List SipRequest :=
  [cleanupCancelMsg destURI req, cleanupByeMsg destURI req]

/-- A complete run over a trace: when the state machine returns, the deferred
cancel releases the run context, so the safety-net goroutine fires and its
CANCEL and BYE are also written. -/
def runWithCleanup (destURI : Uri) (req : SipRequest) (s0 : SMState)
    (trace : List (Nat × Event)) : List String × List SipRequest :=
  let r := runTrace destURI req s0 trace
  if r.1.terminated then (r.2.1, r.2.2 ++ cleanupHookMsgs destURI req)
  else (r.2.1, r.2.2)

/-! ## Address resolver (discoverPublicIP and fetchPublicIPFrom,
src/main.go lines 192-240)

The behaviour of the network is a function from endpoint URL to what the HTTP
round trip produced.  `netErr` covers a request construction or transport
error (and a body read error); on a response the status code and the full body
are given, and fetchPublicIPFrom caps the read at 64 bytes with
io.LimitReader. -/

inductive EndpointResult
  | netErr
  | resp (status : Nat) (body : String)
deriving DecidableEq, Repr

/-- Whitespace as trimmed by strings.TrimSpace; the bodies and headers handled
here are ASCII, for which the Go unicode space class is exactly this set. -/
def goIsSpace (c : Char) : Bool :=
  (c == ' ') || (c == '\t') || (c == '\n') || (c == '\x0b') || (c == '\x0c') || (c == '\r')

/-- strings.TrimSpace: remove leading and trailing whitespace. -/
def trimSpace (s : String) : String :=
  String.mk (((s.data.dropWhile goIsSpace).reverse.dropWhile goIsSpace).reverse)

/-- The first n bytes of a string, as read through io.LimitReader or taken by
a slice; on the ASCII data handled here bytes and characters coincide. -/
def takeChars (s : String) (n : Nat) : String := String.mk (s.data.take n)

/-- The byte slice s[n:], for ASCII data. -/
def dropChars (s : String) (n : Nat) : String := String.mk (s.data.drop n)

/-- Per-request timeout of the HTTP client, src/main.go line 201, in
time-units. -/
def resolverTimeoutUnits : Nat := 8

/-- The fixed ordered endpoint list, src/main.go lines 196-200. -/
def publicIPEndpoints : List String :=
  ["https://api.ipify.org", "https://icanhazip.com", "https://ifconfig.me/ip"]

/-- fetchPublicIPFrom, src/main.go lines 222-240: errors and non-200 statuses
fail; otherwise the body is read through io.LimitReader(resp.Body, 64), so at
most the first 64 characters are returned (bodies here are ASCII, so bytes and
characters coincide). -/
def fetchPublicIPFrom (r : EndpointResult) : Option String :=
  match r with
  | EndpointResult.netErr => none
  | EndpointResult.resp status body =>
      if status ≠ 200 then none else some (takeChars body 64)

/-- The loop of discoverPublicIP, src/main.go lines 203-217: on a fetch error
try the next endpoint; otherwise trim whitespace and accept the first
non-empty result. -/
def discoverLoop (env : String → EndpointResult) : List String → Option String
  | [] => none
  | url :: rest =>
      match fetchPublicIPFrom (env url) with
      | none => discoverLoop env rest
      | some body =>
          let ip := trimSpace body
          if ip = "" then discoverLoop env rest else some ip

/-- discoverPublicIP, src/main.go lines 194-220. -/
def discoverPublicIP (env : String → EndpointResult) : Option String :=
  discoverLoop env publicIPEndpoints

/-- What one endpoint contributes in discoverPublicIP: its capped body after
trimming, when non-empty.  Used to characterise the loop. -/
def endpointYields (env : String → EndpointResult) (url : String) : Option String :=
  match fetchPublicIPFrom (env url) with
  | none => none
  | some body => if trimSpace body = "" then none else some (trimSpace body)

/-! ## Start of a run (run, src/main.go lines 242-305 and 345-350)

The prefix of run before the loop: discover the public IP; on failure post
error to the sink and panic.  The panic is raised inside the goroutine the
front door spawned for the run, and an uncaught panic in any goroutine aborts
the entire Go process.  On success the user agent and client are created
(modelled as succeeding), the INVITE is built, sending_invite is posted, and
TransactionRequest sends the INVITE, reaching the loop. -/

structure RunStart where
  /-- True when the run panicked; the uncaught panic aborts the whole
  process, not just this run. -/
  processAborted : Bool
  events : List String
  msgsSent : List SipRequest
  reachedAwaitingProvisional : Bool
deriving DecidableEq, Repr

def runInit (env : String → EndpointResult) (inviteReq : SipRequest) : RunStart :=
  match discoverPublicIP env with
  | none =>
      { processAborted := true, events := [statusError], msgsSent := [],
        reachedAwaitingProvisional := false }
  | some _ =>
      { processAborted := false, events := [statusSendingInvite],
        msgsSent := [inviteReq], reachedAwaitingProvisional := true }

/-! ## Front door token check (src/main.go lines 47-57 and 159-175;
src/unnamed/part_000 lines 470-500)

The header and query parameter are the empty string when absent, matching
r.Header.Get and r.URL.Query().Get. -/

/-- Token expected by the /call endpoint.  In src/main.go it is the constant
validCallToken; in the src/unnamed/part_000 variant it is the configured
cli.CallToken, so the endpoint model below takes the secret as a parameter. -/
def validCallToken : String := "12345"

structure HttpRequest where
  authHeader : String
  queryToken : String
deriving DecidableEq, Repr

/-- tokenFromRequest, src/main.go lines 50-57: a non-empty Authorization
header starting with the six characters of the Token scheme yields the rest of
the header trimmed, otherwise the token query parameter is used.  The scheme
check is strings.HasPrefix(h, "Token ") and the slice is h[6:]; the six prefix
characters are ASCII, so byte and character positions coincide. -/
def tokenFromRequest (r : HttpRequest) : String :=
  if r.authHeader ≠ "" then
    if takeChars r.authHeader 6 = "Token " then trimSpace (dropChars r.authHeader 6)
    else r.queryToken
  else r.queryToken

inductive CallResult
  /-- The WebSocket is closed with the given close code and reason and no run
  is started. -/
  | closed (code : Nat) (reason : String)
  /-- A call run is started and its statuses are streamed to the client. -/
  | runStarted
deriving DecidableEq, Repr

/-- The /call handler after a successful upgrade, src/main.go lines 159-175:
a token mismatch closes with 4001 Wrong credentials before any run starts. -/
def callEndpoint (secret : String) (r : HttpRequest) : CallResult :=
  if tokenFromRequest r ≠ secret then CallResult.closed 4001 "Wrong credentials"
  else CallResult.runStarted

/-! ## Response-stream handle lifecycle (auth resend, src/main.go
lines 445-454 and the identical dead block at 398-407)

Micro-operations on the set of live client transactions, in the order the
source performs them: client.TransactionDigestAuth builds the authenticated
INVITE and starts a new client transaction (the new handle is live from this
point), then tx.Terminate() retires the previous handle, then tx = newTx
adopts the new one (pure variable assignment, no liveness change). -/

inductive TxOp
  | create (id : Nat)
  | terminate (id : Nat)
  | adopt (id : Nat)
deriving DecidableEq, Repr

def applyTxOp (live : List Nat) : TxOp → List Nat
  | TxOp.create id => id :: live
  | TxOp.terminate id => live.filter (fun x => x != id)
  | TxOp.adopt _ => live

/-- The operation sequence of one auth resend, in source order. -/
def authResendOps (old fresh : Nat) : List TxOp :=
  [TxOp.create fresh, TxOp.terminate old, TxOp.adopt fresh]

/-- All intermediate live-handle sets while executing a list of operations,
including the initial and final ones. -/
def liveStates (live : List Nat) : List TxOp → List (List Nat)
  | [] => [live]
  | op :: ops => live :: liveStates (applyTxOp live op) ops

/-! ## Concrete sample inputs used by witnesses and counterexamples -/

def sampleUri : Uri := { user := "0501234567", host := "sip.example.org" }

/-- The original INVITE as it stands after TransactionRequest sent it: the
transport has filled in Call-ID, CSeq 1 INVITE and Via. -/
def sampleReq : SipRequest :=
  { method := Method.invite, uri := sampleUri,
    fromH := some "<sip:111111@sip.example.org>;tag=1700000000",
    toH := some "<sip:0501234567@sip.example.org>",
    callID := some "f81d4fae-call-id",
    cseq := some (1, Method.invite),
    viaH := some "SIP/2.0/UDP 203.0.113.7;branch=z9hG4bK1",
    contactH := some "<sip:111111@203.0.113.7>",
    pAssertedIdentity := none }

/-- An environment in which every lookup endpoint fails. -/
def envAllFail : String → EndpointResult := fun _ => EndpointResult.netErr

/-- A body of 80 copies of the digit 1: longer than the 64-byte cap. -/
def oversizedBody : String := String.mk (List.replicate 80 (Char.ofNat 49))

/-- An environment in which every lookup endpoint answers 200 with an
oversized body. -/
def envOversized : String → EndpointResult :=
  fun _ => EndpointResult.resp 200 oversizedBody

/-! # Theorems settling the claims -/

/-! ## C1: the call-duration deadline is write-once -/

/-- Every step of the loop leaves an already-set call deadline untouched:
the variable is only assigned in the branch guarded by callDeadline.IsZero. -/
theorem callDeadline_stepRun_preserved (destURI : Uri) (req : SipRequest)
    (s : SMState) (now : Nat) (e : Event) (d : Nat) (h : s.callDeadline = some d) :
    (stepRun destURI req s now e).1.callDeadline = some d := by
  unfold stepRun
  by_cases ht : s.terminated
  · simp [ht, h]
  · simp [ht, h]
    cases e with
    | resp code authOk => simp [authChallengeStep]; split_ifs <;> simp [h]
    | timerFires => simp
    | ctxCancelled => simp
    | txDone => simp
    | txClosed => simp

/-- Trace-level version of the preservation. -/
theorem callDeadline_runTrace_preserved (destURI : Uri) (req : SipRequest) :
    ∀ (trace : List (Nat × Event)) (s : SMState) (d : Nat), s.callDeadline = some d →
      (runTrace destURI req s trace).1.callDeadline = some d := by
  intro trace
  induction trace with
  | nil => intro s d h; simpa [runTrace] using h
  | cons te rest ih =>
      intro s d h
      simp only [runTrace]
      exact ih _ _ (callDeadline_stepRun_preserved destURI req s te.1 te.2 d h)

/-- Claim C1: for every run, the call-duration deadline, once set, is never
unset, moved, or recomputed for the remainder of the run, and it equals
exactly 12 time-units after the event that set it: the first provisional
response (code 100), or an immediate success response (code 200) arriving
before any provisional response.  Stated as: every step either leaves the
deadline unchanged, or finds it unset and sets it to now plus 12 on a 100 or
200 response; and along any trace a set deadline persists. -/
theorem claim_C1_call_deadline_write_once :
    (∀ (destURI : Uri) (req : SipRequest) (s : SMState) (now : Nat) (e : Event),
      (stepRun destURI req s now e).1.callDeadline = s.callDeadline ∨
        (s.callDeadline = none ∧
         (stepRun destURI req s now e).1.callDeadline = some (now + callDurationUnits) ∧
         ∃ ok, e = Event.resp 100 ok ∨ e = Event.resp 200 ok)) ∧
    (∀ (destURI : Uri) (req : SipRequest) (trace : List (Nat × Event)) (s : SMState)
      (d : Nat), s.callDeadline = some d →
        (runTrace destURI req s trace).1.callDeadline = some d) := by
  constructor
  · intro destURI req s now e
    by_cases ht : s.terminated
    · left; simp [stepRun, ht]
    · cases hcd : s.callDeadline with
      | some d =>
          left
          exact callDeadline_stepRun_preserved destURI req s now e d hcd
      | none =>
          cases e with
          | resp code ok =>
              by_cases h100 : code = 100
              · right
                subst h100
                refine ⟨rfl, ?_, ok, Or.inl rfl⟩
                simp [stepRun, ht, hcd]
              · by_cases hauth : code = 401 ∨ code = 407
                · left
                  simp [stepRun, ht, hcd, h100, hauth, authChallengeStep]
                  split_ifs <;> simp
                · by_cases h200 : code = 200
                  · right
                    subst h200
                    refine ⟨rfl, ?_, ok, Or.inr rfl⟩
                    simp [stepRun, ht, hcd]
                  · left
                    by_cases h300 : 300 ≤ code
                    · simp [stepRun, ht, hcd, h100, hauth, h200, h300]
                    · simp [stepRun, ht, hcd, h100, hauth, h200, h300]
          | timerFires => left; simp [stepRun, ht, hcd]
          | ctxCancelled => left; simp [stepRun, ht, hcd]
          | txDone => left; simp [stepRun, ht, hcd]
          | txClosed => left; simp [stepRun, ht, hcd]
  · exact fun destURI req trace s d h =>
      callDeadline_runTrace_preserved destURI req trace s d h

/-- Witness for C1: on a concrete run whose deadline is set to 5, a later
timer firing and response leave it at 5. -/
theorem claim_C1_call_deadline_write_once_witness :
    (runTrace sampleUri sampleReq
        { terminated := false, callDeadline := some 5, deadline100 := 2,
          authChallengeCount := 0 }
        [(5, Event.timerFires), (6, Event.resp 200 true)]).1.callDeadline = some 5 :=
  claim_C1_call_deadline_write_once.2 sampleUri sampleReq
    [(5, Event.timerFires), (6, Event.resp 200 true)]
    { terminated := false, callDeadline := some 5, deadline100 := 2,
      authChallengeCount := 0 } 5 rfl

/-! ## C2: the authentication-challenge counter

The claim states the counter increases by exactly 1 per received 401/407 in
any phase, with termination and an error event only on the 4th challenge.
The code contradicts this once a provisional response has been seen: in
handleResponseAfter100 the branch for codes at least 300 catches 401 and 407,
so the digest-auth resend block at src/main.go lines 389-408 (whose comment
says it resends the INVITE with digest auth) is unreachable, the counter is
not incremented, and the run terminates with error on the very first
challenge after a 100. -/

/-- Claim C2 (code bug exhibited): on the trace 100 then 401, the run emits
trying then error, terminates, sends nothing, and the challenge counter is
still 0, although a challenge was received. -/
theorem claim_C2_challenge_after_provisional_uncounted :
    runTrace sampleUri sampleReq (initialState 0)
        [(0, Event.resp 100 true), (1, Event.resp 401 true)]
      = ({ initialState 0 with callDeadline := some 12, terminated := true },
         [statusTrying, statusError], []) ∧
    (runTrace sampleUri sampleReq (initialState 0)
        [(0, Event.resp 100 true), (1, Event.resp 401 true)]).1.authChallengeCount = 0 := by
  decide

/-! ## C3: provisional timeout sends one abort, plus the cleanup hook -/

/-- Claim C3 (counterexample): on the run where nothing arrives within the
2-unit window, the complete run writes two CANCEL messages, not exactly one:
the state machine sends one, and the safety-net goroutine, released by the
deferred cancel when run returns, sends another CANCEL and a BYE. -/
theorem claim_C3_counterexample :
    ((runWithCleanup sampleUri sampleReq (initialState 0) [(2, Event.timerFires)]).2.countP
        (fun m => m.method == Method.cancel) = 2) ∧
    ((runWithCleanup sampleUri sampleReq (initialState 0) [(2, Event.timerFires)]).2.countP
        (fun m => m.method == Method.cancel) ≠ 1) := by
  decide

/-- Claim C3 (amended): when no response of any kind arrives within 2
time-units of sending the request, the state machine itself emits exactly one
error event, sends exactly one CANCEL, and terminates; the unconditional
cleanup hook then adds one further CANCEL and a BYE, so the complete run
writes two abort messages in total. -/
theorem claim_C3_timeout_one_abort_plus_cleanup :
    ∀ (destURI : Uri) (req : SipRequest) (start : Nat),
      runTrace destURI req (initialState start) [(start + wait100Units, Event.timerFires)]
        = ({ initialState start with terminated := true }, [statusError],
           [sendCANCEL destURI req]) ∧
      runWithCleanup destURI req (initialState start) [(start + wait100Units, Event.timerFires)]
        = ([statusError],
           [sendCANCEL destURI req, cleanupCancelMsg destURI req, cleanupByeMsg destURI req]) ∧
      ((runWithCleanup destURI req (initialState start)
          [(start + wait100Units, Event.timerFires)]).2.countP
        (fun m => m.method == Method.cancel) = 2) := by
  intro destURI req start
  refine ⟨?_, ?_, ?_⟩
  · simp [runTrace, runWithCleanup, stepRun, initialState, cleanupHookMsgs]
  · simp [runTrace, runWithCleanup, stepRun, initialState, cleanupHookMsgs]
  · simp [runTrace, runWithCleanup, stepRun, initialState, cleanupHookMsgs,
      List.countP, List.countP.go, sendCANCEL, cleanupCancelMsg, cleanupByeMsg,
      sendBYE, newRequest]
    decide

/-! ## C5: which responses count as provisional -/

/-- Claim C5 (counterexample): a 180 response, a provisional 1xx code, is
received in AwaitingProvisional and is silently dropped: no status event, no
message, deadline still unset, state unchanged.  The code only matches the
exact status code 100. -/
theorem claim_C5_counterexample :
    stepRun sampleUri sampleReq (initialState 0) 0 (Event.resp 180 true)
      = (initialState 0, [], []) ∧
    (initialState 0).callDeadline = none ∧ 100 ≤ 180 ∧ 180 < 200 := by
  decide

/-- Claim C5 (amended): in the AwaitingProvisional phase, a response with
status code exactly 100 received before the deadline causes the engine to
emit the trying event and set the call-duration deadline to now plus 12,
moving to AwaitingFinal; and every other provisional status code (1xx with
code greater than 100) is silently absorbed in that phase: the state is
unchanged, no status event is emitted, no message is sent, and the deadline
stays unset. -/
theorem claim_C5_only_exact_100 :
    (∀ (destURI : Uri) (req : SipRequest) (s : SMState) (now : Nat) (ok : Bool),
      s.terminated = false → s.callDeadline = none →
      stepRun destURI req s now (Event.resp 100 ok)
        = ({ s with callDeadline := some (now + callDurationUnits) }, [statusTrying], []) ∧
      s.phase = Phase.awaitingProvisional ∧
      ({ s with callDeadline := some (now + callDurationUnits) } : SMState).phase
        = Phase.awaitingFinal) ∧
    (∀ (destURI : Uri) (req : SipRequest) (s : SMState) (now : Nat) (ok : Bool)
      (code : Nat),
      s.terminated = false → s.callDeadline = none →
      100 < code → code < 200 →
      stepRun destURI req s now (Event.resp code ok) = (s, [], [])) := by
  constructor
  · intro destURI req s now ok ht hcd
    refine ⟨?_, ?_, ?_⟩
    · simp [stepRun, ht, hcd]
    · simp [SMState.phase, ht, hcd]
    · simp [SMState.phase, ht]
  · intro destURI req s now ok code ht hcd hlo hhi
    have h100 : ¬ code = 100 := by omega
    have hauth : ¬ (code = 401 ∨ code = 407) := by omega
    have h200 : ¬ code = 200 := by omega
    have h300 : ¬ 300 ≤ code := by omega
    simp [stepRun, ht, hcd, h100, hauth, h200, h300]

/-- Witness for C5: a 100 at time 1 from the initial state starts the 12-unit
timer at 13, and a 183 at time 1 leaves the initial state untouched with no
event and no message. -/
theorem claim_C5_only_exact_100_witness :
    (stepRun sampleUri sampleReq (initialState 0) 1 (Event.resp 100 true)
      = ({ initialState 0 with callDeadline := some 13 }, [statusTrying], [])) ∧
    (stepRun sampleUri sampleReq (initialState 0) 1 (Event.resp 183 true)
      = (initialState 0, [], [])) :=
  ⟨(claim_C5_only_exact_100.1 sampleUri sampleReq (initialState 0) 1 true rfl rfl).1,
   claim_C5_only_exact_100.2 sampleUri sampleReq (initialState 0) 1 true 183 rfl rfl
     (by decide) (by decide)⟩

/-! ## C10: later 100 responses are absorbed -/

/-- Claim C10: after the call-duration deadline is set, every subsequent 100
response is absorbed with no observable effect: the state (hence deadline and
phase) is unchanged, no status event is emitted and no message is sent. -/
theorem claim_C10_repeat_100_no_effect :
    ∀ (destURI : Uri) (req : SipRequest) (s : SMState) (now : Nat) (ok : Bool) (d : Nat),
      s.terminated = false → s.callDeadline = some d →
      stepRun destURI req s now (Event.resp 100 ok) = (s, [], []) := by
  intro destURI req s now ok d ht hcd
  simp [stepRun, ht, hcd, handleResponseAfter100]

/-- Witness for C10 at a concrete AwaitingFinal state. -/
theorem claim_C10_repeat_100_no_effect_witness :
    stepRun sampleUri sampleReq
      { terminated := false, callDeadline := some 12, deadline100 := 2,
        authChallengeCount := 0 } 3 (Event.resp 100 true)
      = ({ terminated := false, callDeadline := some 12, deadline100 := 2,
           authChallengeCount := 0 }, [], []) :=
  claim_C10_repeat_100_no_effect sampleUri sampleReq _ 3 true 12 rfl rfl

/-! ## C4: construction of CANCEL, BYE and ACK -/

/-- Claim C4 (counterexample): the ACK sent on call establishment is the first
message of the established path, and it is a bare new request that does not
carry the From, To or Call-ID of the original request, so not every
constructed signaling message clones the dialog-identifying fields. -/
theorem claim_C4_counterexample :
    (handleCallEstablished sampleUri sampleReq).2.head? = some (newRequest Method.ack sampleUri) ∧
    ¬ ((newRequest Method.ack sampleUri).fromH = sampleReq.fromH ∧
       (newRequest Method.ack sampleUri).toH = sampleReq.toH ∧
       (newRequest Method.ack sampleUri).callID = sampleReq.callID) := by
  decide

/-- Claim C4 (amended): the abort (CANCEL) and teardown (BYE) messages, both
the state-machine and the cleanup-hook variants, are built by cloning the
From, To and Call-ID of the original request; CANCEL reuses the original
sequence number and BYE uses the original sequence number plus 1 (CANCEL and
the state-machine BYE also clone Via; the cleanup-hook BYE leaves Via unset).
The acknowledge (ACK) is not built by cloning: it is a fresh request with no
dialog-identifying fields at all. -/
theorem claim_C4_dialog_cloning :
    ∀ (destURI : Uri) (req : SipRequest) (n : Nat) (m : Method),
      req.cseq = some (n, m) →
      (sendCANCEL destURI req).fromH = req.fromH ∧
      (sendCANCEL destURI req).toH = req.toH ∧
      (sendCANCEL destURI req).callID = req.callID ∧
      (sendCANCEL destURI req).cseq = some (n, Method.cancel) ∧
      (sendCANCEL destURI req).viaH = req.viaH ∧
      (sendBYE destURI req).fromH = req.fromH ∧
      (sendBYE destURI req).toH = req.toH ∧
      (sendBYE destURI req).callID = req.callID ∧
      (sendBYE destURI req).cseq = some (n + 1, Method.bye) ∧
      (sendBYE destURI req).viaH = req.viaH ∧
      cleanupCancelMsg destURI req = sendCANCEL destURI req ∧
      (cleanupByeMsg destURI req).fromH = req.fromH ∧
      (cleanupByeMsg destURI req).toH = req.toH ∧
      (cleanupByeMsg destURI req).callID = req.callID ∧
      (cleanupByeMsg destURI req).cseq = some (n + 1, Method.bye) ∧
      (cleanupByeMsg destURI req).viaH = none ∧
      (newRequest Method.ack destURI).fromH = none ∧
      (newRequest Method.ack destURI).toH = none ∧
      (newRequest Method.ack destURI).callID = none ∧
      (newRequest Method.ack destURI).cseq = none ∧
      (handleCallEstablished destURI req).2
        = [newRequest Method.ack destURI, sendBYE destURI req] := by
  intro destURI req n m h
  simp [sendCANCEL, sendBYE, cleanupCancelMsg, cleanupByeMsg, newRequest,
    reqSeqNo, h, handleCallEstablished]

/-- Witness for C4: the CANCEL for the sample INVITE keeps sequence number 1. -/
theorem claim_C4_dialog_cloning_witness :
    (sendCANCEL sampleUri sampleReq).cseq = some (1, Method.cancel) :=
  (claim_C4_dialog_cloning sampleUri sampleReq 1 Method.invite rfl).2.2.2.1

/-! ## C6: live response-stream handles across an auth resend -/

/-- Claim C6 (counterexample): replaying the auth-resend operations of the
source in order from one live handle 0 with new handle 1, the intermediate
live set right after TransactionDigestAuth returns is of size two: the new
transaction is started before the previous one is terminated, so two handles
are simultaneously active inside the replacement window. -/
theorem claim_C6_counterexample :
    liveStates [0] (authResendOps 0 1) = [[0], [1, 0], [1], [1]] ∧
    [1, 0] ∈ liveStates [0] (authResendOps 0 1) ∧
    ([1, 0] : List Nat).length = 2 := by
  decide

/-- Claim C6 (amended): during an auth-challenge resend the new handle is
created while the previous one is still live, so at most two handles are live,
and only transiently: the previous handle is terminated before the new one is
adopted, and after the resend exactly the new handle is live. -/
theorem claim_C6_replacement_window :
    ∀ old fresh : Nat, old ≠ fresh →
      liveStates [old] (authResendOps old fresh)
        = [[old], [fresh, old], [fresh], [fresh]] ∧
      (∀ l ∈ liveStates [old] (authResendOps old fresh), l.length ≤ 2) ∧
      (liveStates [old] (authResendOps old fresh)).getLast? = some [fresh] := by
  intro old fresh h
  have hfo : (fresh == old) = false := beq_eq_false_iff_ne.mpr (Ne.symm h)
  have hfil : List.filter (fun x => x != old) [fresh, old] = [fresh] := by
    simp [List.filter, bne, hfo]
  refine ⟨?_, ?_, ?_⟩ <;>
    simp [liveStates, applyTxOp, authResendOps, hfil]

/-- Witness for C6 at handle ids 0 and 1. -/
theorem claim_C6_replacement_window_witness :
    liveStates [0] (authResendOps 0 1) = [[0], [1, 0], [1], [1]] :=
  (claim_C6_replacement_window 0 1 (by decide)).1

/-! ## C7: resolution failure and process locality -/

/-- Claim C7 (counterexample): when every lookup endpoint fails, the run posts
error to its sink and then panics, and the uncaught panic in the run goroutine
aborts the whole process, so this failure is not local to the run. -/
theorem claim_C7_counterexample :
    runInit envAllFail sampleReq
      = { processAborted := true, events := [statusError], msgsSent := [],
          reachedAwaitingProvisional := false } ∧
    (runInit envAllFail sampleReq).processAborted ≠ false := by
  decide

/-- Claim C7 (amended): address-resolution failure is surfaced as an error
event when a status sink is present, occurs before any signaling message is
sent, and the run never reaches AwaitingProvisional; but instead of being
local to the run it aborts the whole process through the panic. -/
theorem claim_C7_resolution_failure_preempts :
    ∀ (env : String → EndpointResult) (req : SipRequest),
      discoverPublicIP env = none →
      runInit env req
        = { processAborted := true, events := [statusError], msgsSent := [],
            reachedAwaitingProvisional := false } := by
  intro env req h
  simp [runInit, h]

/-- Witness for C7: all endpoints answering 500 also resolve to nothing. -/
theorem claim_C7_resolution_failure_preempts_witness :
    runInit (fun _ => EndpointResult.resp 500 "oops") sampleReq
      = { processAborted := true, events := [statusError], msgsSent := [],
          reachedAwaitingProvisional := false } :=
  claim_C7_resolution_failure_preempts (fun _ => EndpointResult.resp 500 "oops")
    sampleReq (by decide)

/-! ## C8: the /call token check -/

/-- Claim C8: the /call endpoint validates the caller-supplied token, taken
from the Authorization header when it carries the Token scheme (trimmed) and
otherwise from the token query parameter, against the secret; on mismatch it
closes the connection with code 4001 and reason Wrong credentials without
starting a call run, and on match it starts the run. -/
theorem claim_C8_token_gate :
    ∀ (secret : String) (r : HttpRequest),
      (tokenFromRequest r ≠ secret →
        callEndpoint secret r = CallResult.closed 4001 "Wrong credentials") ∧
      (tokenFromRequest r = secret → callEndpoint secret r = CallResult.runStarted) ∧
      (r.authHeader ≠ "" → takeChars r.authHeader 6 = "Token " →
        tokenFromRequest r = trimSpace (dropChars r.authHeader 6)) ∧
      (takeChars r.authHeader 6 ≠ "Token " → tokenFromRequest r = r.queryToken) := by
  intro secret r
  refine ⟨?_, ?_, ?_, ?_⟩
  · intro h; simp [callEndpoint, h]
  · intro h; simp [callEndpoint, h]
  · intro h1 h2; simp [tokenFromRequest, h1, h2]
  · intro h2
    by_cases h1 : r.authHeader = ""
    · simp [tokenFromRequest, h1]
    · simp [tokenFromRequest, h1, h2]

/-- Witness for C8: a request carrying a wrong token in the Authorization
header is closed with 4001 Wrong credentials. -/
theorem claim_C8_token_gate_witness :
    callEndpoint validCallToken { authHeader := "Token  99999 ", queryToken := "" }
      = CallResult.closed 4001 "Wrong credentials" :=
  (claim_C8_token_gate validCallToken
    { authHeader := "Token  99999 ", queryToken := "" }).1 (by decide)

/-! ## C9: the address resolver -/

/-- Unfolding of one resolver iteration: the first endpoint that yields a
trimmed non-empty capped body wins, otherwise the rest of the list is tried. -/
theorem discoverLoop_cons (env : String → EndpointResult) (u : String)
    (rest : List String) :
    discoverLoop env (u :: rest)
      = match endpointYields env u with
        | some ip => some ip
        | none => discoverLoop env rest := by
  cases hf : fetchPublicIPFrom (env u) with
  | none => simp [discoverLoop, endpointYields, hf]
  | some body =>
      by_cases he : trimSpace body = "" <;>
        simp [discoverLoop, endpointYields, hf, he]

/-- The resolver fails exactly when no endpoint yields anything. -/
theorem discoverLoop_eq_none_iff (env : String → EndpointResult) :
    ∀ urls : List String,
      (discoverLoop env urls = none ↔ ∀ url ∈ urls, endpointYields env url = none) := by
  intro urls
  induction urls with
  | nil => simp [discoverLoop]
  | cons u rest ih =>
      rw [discoverLoop_cons]
      cases hy : endpointYields env u with
      | some ip => simp [hy]
      | none => simp [hy, ih]

/-- Claim C9 (amended): the resolver tries the fixed ordered three-endpoint
list, each request with an 8-unit timeout, trims whitespace from the capped
body and returns the first non-empty result; it fails if and only if every
endpoint errors or its body, capped at 64 bytes, trims to the empty string.
An oversized body is truncated, not rejected. -/
theorem claim_C9_resolver :
    (∀ (env : String → EndpointResult) (u : String) (rest : List String),
      discoverLoop env (u :: rest)
        = match endpointYields env u with
          | some ip => some ip
          | none => discoverLoop env rest) ∧
    (∀ env : String → EndpointResult,
      (discoverPublicIP env = none ↔
        ∀ url ∈ publicIPEndpoints, endpointYields env url = none)) ∧
    publicIPEndpoints
      = ["https://api.ipify.org", "https://icanhazip.com", "https://ifconfig.me/ip"] ∧
    resolverTimeoutUnits = 8 :=
  ⟨discoverLoop_cons, fun env => discoverLoop_eq_none_iff env publicIPEndpoints,
   rfl, rfl⟩

/-- Witness for C9: with every endpoint failing, resolution fails. -/
theorem claim_C9_resolver_witness :
    discoverPublicIP envAllFail = none :=
  (claim_C9_resolver.2.1 envAllFail).mpr (by decide)

set_option maxRecDepth 8000 in
/-- Claim C9 (counterexample): every endpoint returns an oversized (80-byte)
body, yet the resolver succeeds with the truncated 64-byte value instead of
failing, so failure is not equivalent to every endpoint failing or returning
an empty or oversized body. -/
theorem claim_C9_counterexample :
    envOversized "https://api.ipify.org" = EndpointResult.resp 200 oversizedBody ∧
    envOversized "https://icanhazip.com" = EndpointResult.resp 200 oversizedBody ∧
    envOversized "https://ifconfig.me/ip" = EndpointResult.resp 200 oversizedBody ∧
    64 < oversizedBody.data.length ∧
    discoverPublicIP envOversized
      = some (String.mk (List.replicate 64 (Char.ofNat 49))) := by
  decide

end Iftach
